import Mathlib

/-!
Verification of the spec of `Benedito123/tutorial-hands-on`, a repository
whose single source file is the Jupyter notebook `03_performance.ipynb`.

The notebook contains no function, class or algorithm definitions; its code
cells consist of imports, IPython `%env` environment-variable assignments,
shell escapes, `%run` invocations of the external Devito benchmark script
(`benchmark.py`), one plain variable assignment, one mutation of the
external library's `configuration` mapping, a `print` call, and one
`for i in range(3)` loop.

We embed the notebook shallowly: a `Stmt` grammar covering the Python/IPython
statement categories the spec quantifies over (including categories the
notebook never uses, such as function definitions, try/except blocks, and
concurrency primitives, so that their absence is a statement about the
transcription rather than a vacuity of the grammar), and a cell-by-cell
transcription of the notebook's code cells.  Python comment lines are not
statements and are not transcribed; the IPython magics `%run x` and the
automagic form `run x` are both transcribed as `runBenchmark` invocations.
-/

/-- Simple (non-compound) Python/IPython statements as they occur in the
notebook's code cells.  Constructors beyond those the notebook uses model
the statement categories the specification asserts to be absent:
`defFun`/`defClass` (function/class definitions), `spawnThread` /
`spawnProcess` / `syncOp` (concurrency primitives), `tryExcept` and
`condBranch` (failure handling and outcome branching), and `envUnset`
(deletion of an environment variable). -/
inductive Stmt where
  | importMod (m : String)
  | fromImport (m : String) (n : String)
  | assign (lhs : String) (rhs : String)
  | envSet (var : String) (val : String)
  | envUnset (var : String)
  | shell (cmd : String)
  | runBenchmark (args : List String)
  | configAssign (key : String) (val : String)
  | printCall (e : String)
  | defFun (n : String)
  | defClass (n : String)
  | spawnThread (e : String)
  | spawnProcess (e : String)
  | syncOp (e : String)
  | tryExcept (e : String)
  | condBranch (e : String)
  deriving DecidableEq, Repr

/-- Top-level statements of a code cell: either a simple statement or a
`for i in range(n):` loop over simple statements (the only compound
statement occurring in the notebook). -/
inductive TopStmt where
  | simple (s : Stmt)
  | forRange (n : Nat) (body : List Stmt)
  deriving DecidableEq, Repr

/-- A code cell is a list of top-level statements. -/
abbrev Cell := List TopStmt

/-- Code cell 1: `import examples.seismic.benchmark` and
`benchmark = examples.seismic.benchmark.__file__`. -/
def cellImport : Cell :=
  [ .simple (.importMod "examples.seismic.benchmark"),
    .simple (.assign "benchmark" "examples.seismic.benchmark.__file__") ]

/-- Code cell 2: `%run $benchmark --help` (the preceding `#` line is a
Python comment, not a statement). -/
def cellHelp : Cell :=
  [ .simple (.runBenchmark ["--help"]) ]

/-- Code cell 3: `%run $benchmark run -P acoustic`. -/
def cellFirstRun : Cell :=
  [ .simple (.runBenchmark ["run", "-P", "acoustic"]) ]

/-- Code cell 4: `%env DEVITO_OPENMP=1`. -/
def cellOpenmp : Cell :=
  [ .simple (.envSet "DEVITO_OPENMP" "1") ]

/-- Code cell 5: `! lscpu`. -/
def cellLscpu : Cell :=
  [ .simple (.shell "lscpu") ]

/-- Code cell 6: `%env OMP_NUM_THREADS=8`. -/
def cellThreads : Cell :=
  [ .simple (.envSet "OMP_NUM_THREADS" "8") ]

/-- The benchmark argument list of the thread-pinning cell:
`run -P acoustic -so 8 -d 256 256 256 --tn 50`. -/
def args256 : List String :=
  ["run", "-P", "acoustic", "-so", "8", "-d", "256", "256", "256", "--tn", "50"]

/-- Code cell 7 (thread pinning): two `%env` affinity settings,
`%env DEVITO_ARCH=intel`, `from devito import configuration`,
`configuration['compiler'] = 'intel'`, then
`for i in range(3): print ("Run %d" % i); %run $benchmark run -P acoustic
-so 8 -d 256 256 256 --tn 50`. -/
def cellPinning : Cell :=
  [ .simple (.envSet "KMP_HW_SUBSET" "8c,1t"),
    .simple (.envSet "KMP_AFFINITY" "compact"),
    .simple (.envSet "DEVITO_ARCH" "intel"),
    .simple (.fromImport "devito" "configuration"),
    .simple (.configAssign "compiler" "intel"),
    .forRange 3
      [ .printCall "(\"Run %d\" % i)",
        .runBenchmark args256 ] ]

/-- Code cell 8: `run $benchmark run -P acoustic -so 8 -d 256 256 256
--tn 50 -dse advanced`. -/
def cellDse : Cell :=
  [ .simple (.runBenchmark (args256 ++ ["-dse", "advanced"])) ]

/-- The common 512-cube argument list:
`run -P acoustic -so 8 -d 512 512 512 --tn 50 -dse advanced`. -/
def args512 : List String :=
  ["run", "-P", "acoustic", "-so", "8", "-d", "512", "512", "512", "--tn",
   "50", "-dse", "advanced"]

/-- Code cell 9: the 512-cube run with DSE only. -/
def cellBig : Cell :=
  [ .simple (.runBenchmark args512) ]

/-- Code cell 10: the 512-cube run with DSE and DLE. -/
def cellDle : Cell :=
  [ .simple (.runBenchmark (args512 ++ ["-dle", "advanced"])) ]

/-- Code cell 11: `%env DEVITO_AUTOTUNING=aggressive` followed by the
512-cube run with DSE, DLE and auto-tuning (`-a`). -/
def cellAutotune : Cell :=
  [ .simple (.envSet "DEVITO_AUTOTUNING" "aggressive"),
    .simple (.runBenchmark (args512 ++ ["-dle", "advanced", "-a"])) ]

/-- Code cell 12: `%env DEVITO_BACKEND=yask` followed by the 512-cube
run with DSE only. -/
def cellYask : Cell :=
  [ .simple (.envSet "DEVITO_BACKEND" "yask"),
    .simple (.runBenchmark args512) ]

/-- The notebook's code cells, in order. -/
def notebook : List Cell :=
  [cellImport, cellHelp, cellFirstRun, cellOpenmp, cellLscpu, cellThreads,
   cellPinning, cellDse, cellBig, cellDle, cellAutotune, cellYask]

/-- Unroll a top-level statement into the simple statements it executes:
a `for i in range(n)` loop executes its body `n` times. -/
def unrollTop : TopStmt → List Stmt
  | .simple s => [s]
  | .forRange n body => (List.replicate n body).flatten

/-- All top-level statements of the notebook, in order. -/
def topStmts : List TopStmt := notebook.flatten

/-- All simple statements the notebook executes, in execution order
(loops unrolled). -/
def allStmts : List Stmt := topStmts.flatMap unrollTop

/-- The environment-variable assignments the notebook performs, in order. -/
def envAssignments : List (String × String) :=
  allStmts.filterMap fun s =>
    match s with
    | .envSet k v => some (k, v)
    | _ => none

/-- The argument lists of all invocations of the benchmark script, in
execution order. -/
def benchmarkInvocations : List (List String) :=
  allStmts.filterMap fun s =>
    match s with
    | .runBenchmark args => some args
    | _ => none

/-- C1: The set of environment variables the notebook's code sets is exactly
the seven the spec enumerates — DEVITO_OPENMP=1, OMP_NUM_THREADS=8,
KMP_HW_SUBSET=8c,1t, KMP_AFFINITY=compact, DEVITO_ARCH=intel,
DEVITO_AUTOTUNING=aggressive, DEVITO_BACKEND=yask — and no other
environment variable is set anywhere in the notebook. -/
theorem env_vars_exactly_seven :
    envAssignments =
      [("DEVITO_OPENMP", "1"), ("OMP_NUM_THREADS", "8"),
       ("KMP_HW_SUBSET", "8c,1t"), ("KMP_AFFINITY", "compact"),
       ("DEVITO_ARCH", "intel"), ("DEVITO_AUTOTUNING", "aggressive"),
       ("DEVITO_BACKEND", "yask")] := by
  decide

/-- Recognises an argument list made of the seven benchmark flags, each
followed by its values: `-P`, `-so`, `--tn`, `-dse`, `-dle` take one value,
`-d` takes three, `-a` takes none; anything else is rejected. -/
def validFlagSeq : List String → Bool
  | [] => true
  | "-P" :: _ :: rest => validFlagSeq rest
  | "-so" :: _ :: rest => validFlagSeq rest
  | "-d" :: _ :: _ :: _ :: rest => validFlagSeq rest
  | "--tn" :: _ :: rest => validFlagSeq rest
  | "-dse" :: _ :: rest => validFlagSeq rest
  | "-dle" :: _ :: rest => validFlagSeq rest
  | "-a" :: rest => validFlagSeq rest
  | _ => false

/-- An admissible benchmark invocation per the spec's interface section:
either the bare `--help`, or the `run` subcommand followed by flags drawn
from the seven-flag set. -/
def invocationOK (args : List String) : Bool :=
  args == ["--help"] ||
    (match args with
     | "run" :: rest => validFlagSeq rest
     | _ => false)

/-- C2: Every command-line argument the notebook passes to the benchmark
entry point beyond the subcommand `run` and `--help` belongs to the
seven-flag set {-P, -so, -d (three values), --tn, -dse, -dle, -a}; no
invocation uses any flag outside this set. -/
theorem benchmark_flags_within_seven :
    benchmarkInvocations.all invocationOK = true := by
  decide

/-- A statement whose effects are confined to environment variables, the
external benchmark script, imports, and standard output: `assign` (which
creates a Python binding in the notebook session) and `configAssign`
(which mutates the external library's configuration mapping) are not. -/
def isEffectConfined : Stmt → Bool
  | .importMod _ => true
  | .fromImport _ _ => true
  | .envSet _ _ => true
  | .envUnset _ => true
  | .shell _ => true
  | .runBenchmark _ => true
  | .printCall _ => true
  | _ => false

/-- C3 counterexample: the notebook executes
`configuration['compiler'] = 'intel'`, a statement that mutates Python
object state (the external library's configuration mapping), so not every
effect is confined to environment variables and the benchmark script. -/
theorem c3_config_mutation_exists :
    Stmt.configAssign "compiler" "intel" ∈ allStmts ∧
      isEffectConfined (Stmt.configAssign "compiler" "intel") = false := by
  constructor
  · decide
  · decide

/-- C3 (amended): exactly two statements of the notebook create or mutate
Python object state — the binding of the benchmark module's file path to
the variable `benchmark`, and the single mutation
`configuration['compiler'] = 'intel'` of the external library's
configuration mapping; every other statement's effects are confined to
environment variables, the external benchmark script, imports, and
standard output, and no repository-owned persistent structure is created. -/
theorem c3_state_effects_exactly_two :
    allStmts.filter (fun s => !isEffectConfined s) =
      [Stmt.assign "benchmark" "examples.seismic.benchmark.__file__",
       Stmt.configAssign "compiler" "intel"] := by
  decide

/-- The statement categories claim C4 literally allows: an import, an
environment-variable assignment, a benchmark invocation, a shell command,
or an assignment into the external library's configuration. -/
def isC4Category : Stmt → Bool
  | .importMod _ => true
  | .fromImport _ _ => true
  | .envSet _ _ => true
  | .runBenchmark _ => true
  | .shell _ => true
  | .configAssign _ _ => true
  | _ => false

/-- Claim C4's enumeration lifted to top-level statements (a compound
`for` statement is none of the five listed categories). -/
def isC4CategoryTop : TopStmt → Bool
  | .simple s => isC4Category s
  | .forRange _ _ => false

/-- C4 counterexample: the first code cell contains the statement
`benchmark = examples.seismic.benchmark.__file__`, a plain variable
assignment, which is none of the five statement categories the claim
enumerates (and the thread-pinning cell's `for` loop and `print` call are
likewise outside the enumeration). -/
theorem c4_path_assignment_outside_enumeration :
    TopStmt.simple
        (Stmt.assign "benchmark" "examples.seismic.benchmark.__file__")
      ∈ topStmts ∧
      isC4CategoryTop
        (TopStmt.simple
          (Stmt.assign "benchmark" "examples.seismic.benchmark.__file__"))
        = false := by
  constructor
  · decide
  · decide

/-- Simple statements allowed by the amended C4: the five enumerated
categories, plus a plain variable assignment (used once, to record the
benchmark module's file path) and a `print` call. -/
def isC4AmendedStmt (s : Stmt) : Bool :=
  isC4Category s ||
    (match s with
     | .assign _ _ => true
     | .printCall _ => true
     | _ => false)

/-- Amended C4 at top level: a simple allowed statement, or a
`for i in range(n)` loop whose body consists of allowed statements. -/
def isC4AmendedTop : TopStmt → Bool
  | .simple s => isC4AmendedStmt s
  | .forRange _ body => body.all isC4AmendedStmt

/-- C4 (amended): every top-level statement of every code cell is an
import, an environment-variable assignment, a benchmark invocation, a
shell command, an assignment into the external library's configuration, a
plain variable assignment, a `print` call, or a `for`-loop over such
statements; in particular no code cell defines a function, class,
scheduler, optimizer, compiler pass, or data structure. -/
theorem c4_statement_categories_amended :
    topStmts.all isC4AmendedTop = true := by
  decide

/-- A statement that would implement functionality (a function or class
definition); the spec asserts the notebook contains none. -/
def definesImpl : Stmt → Bool
  | .defFun _ => true
  | .defClass _ => true
  | _ => false

/-- C5: Each of the four external engines is exercised solely through a
command-line flag or environment variable — some invocation carries `-dse`,
some carries `-dle`, some carries `-a` while DEVITO_AUTOTUNING is set to
`aggressive`, and DEVITO_BACKEND is set to `yask` — and no statement of
the notebook defines implementing code for any of them. -/
theorem engines_via_flags_only :
    benchmarkInvocations.any (fun a => a.contains "-dse") = true ∧
      benchmarkInvocations.any (fun a => a.contains "-dle") = true ∧
      benchmarkInvocations.any (fun a => a.contains "-a") = true ∧
      ("DEVITO_AUTOTUNING", "aggressive") ∈ envAssignments ∧
      ("DEVITO_BACKEND", "yask") ∈ envAssignments ∧
      allStmts.all (fun s => !definesImpl s) = true := by
  refine ⟨by decide, by decide, by decide, by decide, by decide, by decide⟩

/-- A statement that creates a thread or process, or performs a
synchronization operation, via Python's concurrency facilities. -/
def isConcurrencyOp : Stmt → Bool
  | .spawnThread _ => true
  | .spawnProcess _ => true
  | .syncOp _ => true
  | _ => false

/-- C6: The notebook's own code implements no concurrency: no statement
creates a thread or process or performs a synchronization operation;
shared-memory multithreading and thread pinning are requested only through
environment-variable settings (DEVITO_OPENMP, OMP_NUM_THREADS,
KMP_HW_SUBSET, KMP_AFFINITY). -/
theorem no_concurrency_in_notebook :
    allStmts.all (fun s => !isConcurrencyOp s) = true ∧
      ("DEVITO_OPENMP", "1") ∈ envAssignments ∧
      ("OMP_NUM_THREADS", "8") ∈ envAssignments ∧
      ("KMP_HW_SUBSET", "8c,1t") ∈ envAssignments ∧
      ("KMP_AFFINITY", "compact") ∈ envAssignments := by
  refine ⟨by decide, by decide, by decide, by decide, by decide⟩

/-- A failure-handling statement: a try/except block, or a conditional
branch (e.g. on an error code or on the outcome of an invocation). -/
def isErrorHandling : Stmt → Bool
  | .tryExcept _ => true
  | .condBranch _ => true
  | _ => false

/-- C7: No statement of any code cell performs failure handling: there is
no try/except block and no conditional branch on the outcome of any
benchmark invocation, so errors propagate unhandled out of the notebook's
code. -/
theorem no_error_handling :
    allStmts.all (fun s => !isErrorHandling s) = true := by
  decide

/-- The argument lists of the benchmark invocations a single code cell
executes, in execution order (loops unrolled). -/
def cellInvocations (c : Cell) : List (List String) :=
  (c.flatMap unrollTop).filterMap fun s =>
    match s with
    | .runBenchmark args => some args
    | _ => none

/-- The three values following the `-d` (per-axis grid dimensions) flag of
an argument list, if present. -/
def dimFlagValues : List String → Option (List String)
  | [] => none
  | "-d" :: a :: b :: c :: _ => some [a, b, c]
  | _ :: rest => dimFlagValues rest

/-- Whether the first character list is a prefix of the second. -/
def charPrefix : List Char → List Char → Bool
  | [], _ => true
  | _ :: _, [] => false
  | a :: as, b :: bs => a == b && charPrefix as bs

/-- Whether `needle` occurs as a contiguous substring of `hay`. -/
def charSubstr (needle : List Char) : List Char → Bool
  | [] => needle.isEmpty
  | b :: bs => charPrefix needle (b :: bs) || charSubstr needle bs

/-- Whether the string `needle` occurs inside the string `hay`. -/
def strContains (hay needle : String) : Bool :=
  charSubstr needle.toList hay.toList

/-- The markdown narrative cell that immediately precedes the
thread-pinning code cell in the notebook, transcribed verbatim. -/
def pinningNarrative : String :=
  "We run the isotropic acoustic forward operator again, but this time with a much larger grid, a 512x512x512 cube, and a more realistic space order, 8. We also shorten the duration by deliberately choosing a very small simulation end time (50 ms)."

/-- C8: The thread-pinning cell invokes the benchmark script exactly three
times, each time with the identical argument list
`run -P acoustic -so 8 -d 256 256 256 --tn 50`; its per-axis grid
dimensions are 256x256x256, not the 512x512x512 cube announced by the
immediately preceding narrative cell. -/
theorem pinning_cell_three_identical_runs :
    cellInvocations cellPinning = List.replicate 3 args256 ∧
      dimFlagValues args256 = some ["256", "256", "256"] ∧
      dimFlagValues args256 ≠ some ["512", "512", "512"] ∧
      strContains pinningNarrative "512x512x512" = true := by
  refine ⟨by decide, by decide, by decide, by decide⟩

/-- Update an environment (an ordered association list) with one
assignment: overwrite the existing binding or append a new one. -/
def setEnv (env : List (String × String)) (k v : String) :
    List (String × String) :=
  if env.any (fun p => p.1 == k) then
    env.map (fun p => if p.1 == k then (k, v) else p)
  else env ++ [(k, v)]

/-- The effect of one statement on the process environment. -/
def stepEnv (env : List (String × String)) : Stmt → List (String × String)
  | .envSet k v => setEnv env k v
  | .envUnset k => env.filter (fun p => p.1 != k)
  | _ => env

/-- Thread the environment through a statement list, recording, for each
benchmark invocation, its argument list together with the environment in
effect at that moment. -/
def envTraceAux (env : List (String × String)) :
    List Stmt → List (List String × List (String × String))
  | [] => []
  | s :: rest =>
    match s with
    | .runBenchmark args => (args, env) :: envTraceAux (stepEnv env s) rest
    | _ => envTraceAux (stepEnv env s) rest

/-- The benchmark invocations of the whole notebook, each paired with the
environment in effect when it runs (starting from an empty environment). -/
def invocationTrace : List (List String × List (String × String)) :=
  envTraceAux [] allStmts

/-- C9: Environment-variable settings accumulate monotonically: each
variable is set exactly once, no statement unsets a variable, the
environment at every invocation is a prefix of the final seven-variable
environment, and the final YASK-backend run executes with DEVITO_OPENMP=1,
OMP_NUM_THREADS=8, both affinity variables, DEVITO_ARCH=intel,
DEVITO_AUTOTUNING=aggressive and DEVITO_BACKEND=yask all in effect. -/
theorem env_accumulates_monotonically :
    (envAssignments.map Prod.fst).Nodup ∧
      (allStmts.all fun s =>
        match s with
        | .envUnset _ => false
        | _ => true) = true ∧
      (invocationTrace.all fun t =>
        t.2.isPrefixOf
          [("DEVITO_OPENMP", "1"), ("OMP_NUM_THREADS", "8"),
           ("KMP_HW_SUBSET", "8c,1t"), ("KMP_AFFINITY", "compact"),
           ("DEVITO_ARCH", "intel"), ("DEVITO_AUTOTUNING", "aggressive"),
           ("DEVITO_BACKEND", "yask")]) = true ∧
      invocationTrace.getLast? =
        some (args512,
          [("DEVITO_OPENMP", "1"), ("OMP_NUM_THREADS", "8"),
           ("KMP_HW_SUBSET", "8c,1t"), ("KMP_AFFINITY", "compact"),
           ("DEVITO_ARCH", "intel"), ("DEVITO_AUTOTUNING", "aggressive"),
           ("DEVITO_BACKEND", "yask")]) := by
  refine ⟨by decide, by decide, by decide, by decide⟩

/-- The value following the first occurrence of `flag` in an argument
list, if any. -/
def flagValue (flag : String) : List String → Option String
  | [] => none
  | f :: rest => if f == flag then rest.head? else flagValue flag rest

/-- The invocations that use the benchmark script's `run` subcommand. -/
def runInvocations : List (List String) :=
  benchmarkInvocations.filter fun a => a.head? == some "run"

/-- Claim C10's per-invocation condition: the preset is `acoustic`, and
the `-so`, `--tn` and `-dse` values, when given, are `8`, `50` and
`advanced` respectively. -/
def c10Check (args : List String) : Bool :=
  flagValue "-P" args == some "acoustic" &&
    (match flagValue "-so" args with
     | none => true
     | some v => v == "8") &&
    (match flagValue "--tn" args with
     | none => true
     | some v => v == "50") &&
    (match flagValue "-dse" args with
     | none => true
     | some v => v == "advanced")

/-- C10: Every `run`-subcommand invocation in the notebook selects the
acoustic preset via `-P acoustic`; whenever a spatial order is given it is
8, whenever an end time is given it is 50, and whenever a
symbolic-optimization level is given it is `advanced`. -/
theorem run_invocations_flag_values :
    runInvocations ≠ [] ∧ runInvocations.all c10Check = true := by
  refine ⟨by decide, by decide⟩
